import Mathlib

/-!
Verification development for `collectors/behavioral.py` of the ML-Model
repository: a shallow embedding of the adaptive web-interaction collector
(`get_behavioral_metrics` and its helpers `_safe_click`, `_dismiss_overlays`,
`_find_product_url`, `_count_broken_links`) as pure Lean functions over an
explicit environment that answers every external (Playwright / network)
query the Python code makes, together with theorems about the embedded
functions.

Conventions of the embedding:
* every awaited Playwright call is fallible; the environment says whether it
  raises, and a raised exception follows exactly the `try/except` structure
  of the source;
* the result dictionary is the `Result` structure (one field per key of the
  Python `defaults` dict), `Result.toFields` reflecting its key/value rows;
* observable actions of the session (typing into the search box, clearing
  it, navigating to the product page, probing the add-to-cart cascade, ...)
  are recorded in an event trace `List Ev`.
-/

/-! ## String helpers (substring search, used to model Python `in` and `re.search`) -/

/-- `hasSubAux pat l` is true when `pat` occurs contiguously inside `l`.
Models the Python substring test `pat in s`. -/
def hasSubAux (pat : List Char) : List Char → Bool
  | [] => pat.isEmpty
  | c :: rest => pat.isPrefixOf (c :: rest) || hasSubAux pat rest

/-- `strHasSub s pat`: `pat` is a contiguous substring of `s`. -/
def strHasSub (s pat : String) : Bool :=
  hasSubAux pat.data s.data

/-- `strStartsWith s pre`: `s` starts with `pre`.  Models the Python
`str.startswith` test (and tuple variants, as a disjunction). -/
def strStartsWith (s pre : String) : Bool :=
  pre.data.isPrefixOf s.data

/-- ASCII lowering of one character.  The hrefs, keywords and pattern
words this collector lowercases are ASCII, so ASCII lowering models
Python `str.lower()` / `re.IGNORECASE` on them. -/
def lowerChar (c : Char) : Char :=
  if 65 ≤ c.toNat ∧ c.toNat ≤ 90 then Char.ofNat (c.toNat + 32) else c

/-- Models Python `s.lower()` (ASCII range). -/
def toLowerStr (s : String) : String :=
  String.mk (s.data.map lowerChar)

/-- Index of the first occurrence of `pat` in a char list, if any. -/
def findSubIdx (pat : List Char) : List Char → Option Nat
  | [] => if pat.isEmpty then some 0 else none
  | c :: rest =>
    if pat.isPrefixOf (c :: rest) then some 0
    else (findSubIdx pat rest).map (· + 1)

/-! ## URL model

Modelled from the Python standard library (`urllib.parse`), for the URL
shapes this collector passes to it: `urlparse(u).netloc` and
`urljoin(base, href)` where `base` is an absolute `scheme://netloc/...` URL
and `href` is an absolute URL, a scheme-relative `//host/...` reference, a
root-relative `/...` path, or a plain relative path. -/

/-- Modelled from the spec: the scheme of an absolute URL (text before
`://`), empty for a reference with no scheme part.  Models the scheme
splitting performed by `urllib.parse`. -/
def schemeOf (u : String) : String :=
  match findSubIdx "://".data u.data with
  | some i => String.mk (u.data.take i)
  | none => ""

/-- Modelled from `urllib.parse.urlparse(u).netloc` for URLs carrying a
scheme: the host part, between `://` and the next `/`. -/
def netlocOf (u : String) : String :=
  match findSubIdx "://".data u.data with
  | some i => String.mk ((u.data.drop (i + 3)).takeWhile (fun c => c ≠ '/'))
  | none => ""

/-- Modelled from `urllib.parse.urljoin(base, href)` for the reference
shapes the collector uses: an href with its own scheme is returned as is; a
scheme-relative `//host/...` href takes the base scheme; a root-relative
`/...` href is attached to the base origin; any other non-empty href
replaces the last segment of the base path. -/
def urljoin (base href : String) : String :=
  if strHasSub href "://" then href
  else if strStartsWith href "//" then schemeOf base ++ ":" ++ href
  else if strStartsWith href "/" then schemeOf base ++ "://" ++ netlocOf base ++ href
  else if href = "" then base
  else
    match findSubIdx "://".data base.data with
    | none => href
    | some i =>
      let afterScheme := base.data.drop (i + 3)
      let netloc := afterScheme.takeWhile (fun c => c ≠ '/')
      let path := afterScheme.drop netloc.length
      let dir := (path.reverse.dropWhile (fun c => c ≠ '/')).reverse
      let dir2 := if dir.isEmpty then ['/'] else dir
      String.mk (base.data.take (i + 3) ++ netloc ++ dir2) ++ href

/-! ## Configuration (config.py) -/

structure Viewport where
  width : Int
  height : Int
deriving DecidableEq, Repr

def VIEWPORT_DESKTOP : Viewport := { width := 1440, height := 900 }

def VIEWPORT_MOBILE : Viewport := { width := 390, height := 844 }

/-! ## Selector candidate lists (behavioral.py lines 32-87) -/

def CLOSE_OVERLAY_SELECTORS : List String := [
  "[aria-label*=\x27close\x27 i]", "[aria-label*=\x27dismiss\x27 i]",
  "button:has-text(\x27×\x27)", "button:has-text(\x27✕\x27)",
  "button:has-text(\x27Close\x27)", "button:has-text(\x27No thanks\x27)",
  "button:has-text(\x27Maybe later\x27)", ".modal-close", ".popup-close",
  "\x23onetrust-accept-btn-handler", ".cc-btn.cc-dismiss",
  "[data-testid=\x27close-button\x27]",
  "[class*=\x27close\x27]", "[id*=\x27close\x27]"]

def CART_SELECTORS : List String := [
  "a[href*=\x27cart\x27]", "a[href*=\x27basket\x27]", "a[href*=\x27bag\x27]",
  "[aria-label*=\x27cart\x27 i]", "[aria-label*=\x27basket\x27 i]",
  "[data-testid*=\x27cart\x27]", ".cart-icon", "#cart"]

def CHECKOUT_SELECTORS : List String := [
  "a[href*=\x27checkout\x27]", "button:has-text(\x27Checkout\x27)",
  "button:has-text(\x27Proceed to checkout\x27)", "button:has-text(\x27Go to checkout\x27)",
  "a:has-text(\x27Checkout\x27)"]

def GUEST_CHECKOUT_SELECTORS : List String := [
  "button:has-text(\x27Guest\x27)", "a:has-text(\x27Guest\x27)",
  "button:has-text(\x27Continue as guest\x27)", "a:has-text(\x27Continue as guest\x27)",
  "input[value*=\x27guest\x27 i]", "[data-testid*=\x27guest\x27]"]

def ADD_TO_CART_SELECTORS : List String := [
  "button:has-text(\x27Add to cart\x27)", "button:has-text(\x27Add to bag\x27)",
  "button:has-text(\x27Add to basket\x27)", "button:has-text(\x27Buy now\x27)",
  "[data-testid*=\x27add-to-cart\x27]", ".add-to-cart", "#add-to-cart",
  "button[name*=\x27add\x27]"]

def SEARCH_INPUT_SELECTORS : List String := [
  "input[type=\x27search\x27]", "input[name=\x27q\x27]", "input[name=\x27query\x27]",
  "input[placeholder*=\x27search\x27 i]", "[aria-label*=\x27search\x27 i] input",
  "\x23search", ".search-input"]

def AUTOSUGGEST_SELECTORS : List String := [
  ".suggestions", ".autocomplete", "[role=\x27listbox\x27]",
  "[data-testid*=\x27suggest\x27]", "[class*=\x27suggest\x27]", "[class*=\x27autocomplete\x27]",
  "[class*=\x27dropdown\x27]"]

def QUICK_BUY_SELECTORS : List String := [
  "button:has-text(\x27Buy now\x27)", "button:has-text(\x27Buy Now\x27)",
  "[data-testid*=\x27buy-now\x27]", "[class*=\x27buy-now\x27]", ".quick-buy"]

/-- The product-grid container selectors (`grid_selectors` local of
`_find_product_url`). -/
def GRID_SELECTORS : List String := [
  "[class*=\x27product\x27] a", "[class*=\x27item\x27] a",
  "[data-testid*=\x27product\x27] a", ".card a", ".tile a"]

/-- `PRODUCT_LINK_PATTERNS.search(href)`: the compiled regular expression
`/(product|item|p|shop|detail|goods|pd)/` with `re.IGNORECASE`, i.e. some
`/word/` with one of the seven words occurs in the href, case-insensitively. -/
def PRODUCT_LINK_WORDS : List String :=
  ["product", "item", "p", "shop", "detail", "goods", "pd"]

def product_link_match (href : String) : Bool :=
  PRODUCT_LINK_WORDS.any (fun w => strHasSub (toLowerStr href) ("/" ++ w ++ "/"))

/-! ## `_safe_click` (lines 92-102)

One candidate probe (`wait_for(state="visible")` then `click`) has three
possible outcomes: the wait raises (candidate never became visible), the
wait succeeds but the click raises, or both succeed.  Both exception
outcomes are caught by the per-candidate `except` and treated as "try the
next candidate". -/

inductive ClickOutcome where
  | raiseOnWait
  | raiseOnClick
  | clicked
deriving DecidableEq, Repr

/-- `_safe_click(page, selectors)`: try each selector; `true` once one
candidate is waited for and clicked, `false` after the list is exhausted. -/
def safe_click (env : String → ClickOutcome) : List String → Bool
  | [] => false
  | sel :: rest =>
    match env sel with
    | .clicked => true
    | _ => safe_click env rest

/-- The candidates `_safe_click` probes, in the order it probes them. -/
def safe_click_probes (env : String → ClickOutcome) : List String → List String
  | [] => []
  | sel :: rest =>
    match env sel with
    | .clicked => [sel]
    | _ => sel :: safe_click_probes env rest

/-! ## `_dismiss_overlays` (lines 105-123) -/

/-- One overlay-close candidate probe: `is_visible` raises, reports not
visible, reports visible but the `click` raises, the click succeeds and
the 500 ms settle wait succeeds (the inner loop then breaks), or the
click succeeds but the settle wait raises — in that last case the
`except` fires *after* `count += 1` and `dismissed = True`, so the same
pass continues with the remaining candidates and can dismiss further
overlays. -/
inductive OverlayOutcome where
  | raiseOnVis
  | notVisible
  | raiseOnClick
  | clicked
  | clickedWaitRaise
deriving DecidableEq, Repr

/-- A candidate outcome that increments the dismissal count (`count += 1`
runs exactly when the click succeeded, whether or not the settle wait
then raises). -/
def overlay_click_succeeded : OverlayOutcome → Bool
  | .clicked => true
  | .clickedWaitRaise => true
  | _ => false

/-- One pass of the inner `for sel in CLOSE_OVERLAY_SELECTORS` loop:
whether some candidate was dismissed in this pass (`dismissed`), how many
overlays the pass dismissed (several are possible when a settle wait
raises after a successful click), and how many candidates were probed.
The pass breaks at the first fully successful dismissal; a dismissal
whose settle wait raised continues with the next candidate. -/
def overlay_pass (env : String → OverlayOutcome) : List String → Bool × Nat × Nat
  | [] => (false, 0, 0)
  | sel :: rest =>
    match env sel with
    | .clicked => (true, 1, 1)
    | .clickedWaitRaise =>
      let p := overlay_pass env rest
      (true, p.2.1 + 1, p.2.2 + 1)
    | _ =>
      let p := overlay_pass env rest
      (p.1, p.2.1, p.2.2 + 1)

/-- The round loop `for _ in range(5)` of `_dismiss_overlays`, from round
`round` with `fuel` rounds remaining: returns (overlays dismissed,
candidate probes made, rounds executed).  A round whose pass dismissed
nothing breaks the loop. -/
def dismiss_go (env : Nat → String → OverlayOutcome) (sels : List String) :
    Nat → Nat → Nat × Nat × Nat
  | _, 0 => (0, 0, 0)
  | round, fuel + 1 =>
    let pass := overlay_pass (env round) sels
    if pass.1 then
      let rec_ := dismiss_go env sels (round + 1) fuel
      (pass.2.1 + rec_.1, pass.2.2 + rec_.2.1, rec_.2.2 + 1)
    else (pass.2.1, pass.2.2, 1)

/-- `_dismiss_overlays(page)` with its probe and round counts: (count of
overlays dismissed, total per-candidate probes, rounds executed). -/
def dismiss_overlays_full (env : Nat → String → OverlayOutcome)
    (sels : List String) : Nat × Nat × Nat :=
  dismiss_go env sels 0 5

/-- `_dismiss_overlays(page)`: the count of overlays dismissed. -/
def dismiss_overlays (env : Nat → String → OverlayOutcome)
    (sels : List String) : Nat :=
  (dismiss_overlays_full env sels).1

/-! ## `_find_product_url` (lines 126-166)

`anchors` is the list `page.locator("a[href]").all()` of the landing page;
each entry is the outcome of `a.get_attribute("href", ...)`: `some h` when
the attribute call returned a string, `none` when it returned null or
raised (both are skipped by the loop, the latter through the
per-candidate `except`).  `grid` answers, for each product-grid selector,
the `get_attribute` on its first match (`none` again covering both null
and a raised exception). -/

/-- Strategy 1 loop body: first anchor among the scanned window whose href
is non-empty (Python truthiness) and matches the product pattern. -/
def scan_pattern (base : String) : List (Option String) → Option String
  | [] => none
  | none :: rest => scan_pattern base rest
  | some h :: rest =>
    if h = "" then scan_pattern base rest
    else if product_link_match h then some (urljoin base h)
    else scan_pattern base rest

/-- Strategy 2 loop body: first grid selector whose first match yields a
non-empty href. -/
def scan_grid (base : String) (grid : String → Option String) : List String → Option String
  | [] => none
  | sel :: rest =>
    match grid sel with
    | none => scan_grid base grid rest
    | some h =>
      if h = "" then scan_grid base grid rest
      else some (urljoin base h)

/-- Strategy 3 loop body: first anchor in the window with a non-empty href
that starts with `"/"` or with the base URL and contains no `"#"`. -/
def scan_window (base : String) : List (Option String) → Option String
  | [] => none
  | none :: rest => scan_window base rest
  | some h :: rest =>
    if h = "" then scan_window base rest
    else if (strStartsWith h "/" || strStartsWith h base) && !(strHasSub h "#") then
      some (urljoin base h)
    else scan_window base rest

/-- `_find_product_url(page, base_url)`: strategy 1 over `anchors[:60]`,
then strategy 2 over the grid selectors, then strategy 3 over
`anchors[5:30]`; `none` when all three fail. -/
def find_product_url (anchors : List (Option String))
    (grid : String → Option String) (base : String) : Option String :=
  match scan_pattern base (anchors.take 60) with
  | some u => some u
  | none =>
    match scan_grid base grid GRID_SELECTORS with
    | some u => some u
    | none => scan_window base ((anchors.drop 5).take 25)

/-! ## `_count_broken_links` (lines 169-194) -/

/-- Outcome of `page.request.get(full, ...)`: a response with a status
code, or a raised exception (timeout, network error), which the
per-candidate `except` catches. -/
inductive FetchOutcome where
  | status (code : Nat)
  | err
deriving DecidableEq, Repr

/-- State returned by the sampling loop: the broken count and the raw
hrefs actually requested (in order).  `seen` accumulates exactly the
requested hrefs. -/
structure LinkSample where
  broken : Nat
  requested : List String
deriving DecidableEq, Repr

/-- The `for a in anchors[:10]` loop of `_count_broken_links`, with `seen`
the set already requested.  An anchor is skipped when its href fetch
raised or returned null (`none`), or the href is empty / already seen /
fragment-only / `mailto:` / `tel:`, or it resolves cross-origin; otherwise
it is requested, a 404 status increments the count and a raised request is
silently ignored. -/
def sample_go (base : String) (fetch : String → FetchOutcome)
    (seen : List String) : List (Option String) → LinkSample
  | [] => { broken := 0, requested := [] }
  | none :: rest => sample_go base fetch seen rest
  | some h :: rest =>
    if h = "" || seen.contains h || strStartsWith h "#" || strStartsWith h "mailto:"
        || strStartsWith h "tel:" then
      sample_go base fetch seen rest
    else
      let full := urljoin base h
      if netlocOf full ≠ netlocOf base then sample_go base fetch seen rest
      else
        let s := sample_go base fetch (h :: seen) rest
        match fetch full with
        | .status c =>
          { broken := (if c = 404 then s.broken + 1 else s.broken),
            requested := h :: s.requested }
        | .err => { broken := s.broken, requested := h :: s.requested }

/-- The sampling state of `_count_broken_links(page, base_url)` over the
first ten nav anchors. -/
def sample_links (base : String) (fetch : String → FetchOutcome)
    (anchors : List (Option String)) : LinkSample :=
  sample_go base fetch [] (anchors.take 10)

/-- `_count_broken_links(page, base_url)`: `anchors?` is the outcome of
the `.all()` call on the nav / header / menu-class anchor locator;
`none` (the call raised) is caught by the outer `except` and yields 0. -/
def count_broken_links (base : String) (fetch : String → FetchOutcome)
    (anchors? : Option (List (Option String))) : Nat :=
  match anchors? with
  | none => 0
  | some anchors => (sample_links base fetch anchors).broken

/-! ## The result record (the `defaults` dict of `get_behavioral_metrics`) -/

structure Result where
  popup_count : Int
  has_guest_checkout : Int
  click_depth_to_checkout : Int
  cart_persistence : Int
  has_search_autosuggest : Int
  has_quick_buy : Int
  broken_link_count : Int
  is_mobile_responsive : Int
  page_html : String
deriving DecidableEq, Repr

/-- The dict as initialised at the top of `get_behavioral_metrics`
(lines 200-210). -/
def defaults : Result :=
  { popup_count := 0,
    has_guest_checkout := 0,
    click_depth_to_checkout := -1,
    cart_persistence := 0,
    has_search_autosuggest := 0,
    has_quick_buy := 0,
    broken_link_count := 0,
    is_mobile_responsive := 0,
    page_html := "" }

/-- The eight signal keys of the result dict. -/
def signalKeys : List String :=
  ["popup_count", "has_guest_checkout", "click_depth_to_checkout",
   "cart_persistence", "has_search_autosuggest", "has_quick_buy",
   "broken_link_count", "is_mobile_responsive"]

/-- The key/value rows of the dict for its eight numeric signal fields
(`page_html`, the transient payload for the trust collector, is the ninth
key and carries a string). -/
def Result.toFields (r : Result) : List (String × Int) :=
  [("popup_count", r.popup_count),
   ("has_guest_checkout", r.has_guest_checkout),
   ("click_depth_to_checkout", r.click_depth_to_checkout),
   ("cart_persistence", r.cart_persistence),
   ("has_search_autosuggest", r.has_search_autosuggest),
   ("has_quick_buy", r.has_quick_buy),
   ("broken_link_count", r.broken_link_count),
   ("is_mobile_responsive", r.is_mobile_responsive)]

/-! ## Event trace -/

/-- Observable actions of the session recorded by the embedding. -/
inductive Ev where
  /-- the search probe finished typing "shirt" into the input at `sel` -/
  | typed (sel : String)
  /-- `inp.fill("")` was invoked on the input at `sel` -/
  | fillInvoked (sel : String)
  /-- `inp.fill("")` succeeded: the typed text was actually cleared -/
  | cleared (sel : String)
  /-- `page.goto(product_url)` was attempted (step 5) -/
  | gotoProduct (u : String)
  /-- the quick-buy candidate list was re-checked on the product page -/
  | quickBuyRecheck
  /-- the add-to-cart locator cascade was invoked -/
  | addProbe
  /-- the cart-link locator cascade was invoked -/
  | cartProbe
  /-- the checkout-link locator cascade was invoked -/
  | checkoutProbe
  /-- the guest-checkout visibility cascade was invoked -/
  | guestProbe
  /-- successful transition to the product page (`click_depth += 1`, line 270) -/
  | transProduct
  /-- successful add-to-cart transition (`click_depth += 1`, line 287) -/
  | transAdd
  /-- successful transition into the cart (`click_depth += 1`, line 295) -/
  | transCart
  /-- successful transition to checkout (`click_depth += 1`, line 303) -/
  | transCheckout
  /-- the fresh cart-persistence session navigated to `u` (line 341) -/
  | freshCartGoto (u : String)
deriving DecidableEq, Repr

/-- The four state-transition events, in funnel order. -/
def isTransEv : Ev → Bool
  | .transProduct => true
  | .transAdd => true
  | .transCart => true
  | .transCheckout => true
  | _ => false

/-- Events the search-autosuggest probe can emit. -/
def isSearchEv : Ev → Bool
  | .typed _ => true
  | .fillInvoked _ => true
  | .cleared _ => true
  | _ => false

/-! ## Visibility-only cascades (search input, autosuggest panel, quick
buy, guest checkout): `is_visible` raises (caught), returns false, or
returns true — the first visible candidate sets the flag and breaks. -/

inductive VisOutcome where
  | raiseOnVis
  | notVisible
  | visible
deriving DecidableEq, Repr

def first_visible (env : String → VisOutcome) : List String → Bool
  | [] => false
  | sel :: rest =>
    match env sel with
    | .visible => true
    | _ => first_visible env rest

/-! ## The search-autosuggest probe (lines 233-250) -/

/-- The environment answers, per search-input selector: the `is_visible`
outcome, whether `inp.click`, `inp.type("shirt")`, the 1.2 s settle wait
and `inp.fill("")` succeed (false = the call raised; all raises are caught
by the per-selector `except Exception: continue`), and the autosuggest
panel visibility answers while this input holds the query. -/
structure SearchProbeEnv where
  vis : VisOutcome
  clickOk : Bool
  typeOk : Bool
  waitOk : Bool
  suggest : String → VisOutcome
  fillOk : Bool

/-- The `for sel in SEARCH_INPUT_SELECTORS` loop.  `acc` is the current
value of the sticky `has_search_autosuggest` flag (the dict is mutated
before `inp.fill("")` runs, so a later exception does not unset it).
Returns the final flag and the emitted events. -/
def search_probe (env : String → SearchProbeEnv) : List String → Bool → Bool × List Ev
  | [], acc => (acc, [])
  | sel :: rest, acc =>
    let e := env sel
    match e.vis with
    | .visible =>
      if e.clickOk then
        if e.typeOk then
          if e.waitOk then
            let acc2 := acc || first_visible e.suggest AUTOSUGGEST_SELECTORS
            if e.fillOk then (acc2, [.typed sel, .fillInvoked sel, .cleared sel])
            else
              let p := search_probe env rest acc2
              (p.1, .typed sel :: .fillInvoked sel :: p.2)
          else
            let p := search_probe env rest acc
            (p.1, .typed sel :: p.2)
        else search_probe env rest acc
      else search_probe env rest acc
    | _ => search_probe env rest acc

/-! ## The run environment -/

/-- Everything external that one run of `get_behavioral_metrics(url)`
consults, in program order.  `siteCart` is the body text of the site `/cart` page
as a function of the cookies the requesting session presents
(`none` = the navigation or `inner_text` raised); the cookies the primary
session accumulated are `primCookies`, while the cart-persistence check
runs in a brand-new context that presents `[]`. -/
structure RunEnv where
  /-- `page.goto(url, ...)` (line 225) succeeded; false aborts the `try`
  block of the primary session -/
  gotoHome : Bool
  overlaysHome : Nat → String → OverlayOutcome
  /-- `page.content()` (line 227); `none` = raised, aborting the `try` -/
  pageContent : Option String
  /-- the nav/header/menu anchor hrefs for `_count_broken_links`;
  `none` = the `.all()` call raised (caught inside the helper) -/
  navAnchors : Option (List (Option String))
  fetch : String → FetchOutcome
  search : String → SearchProbeEnv
  quickBuyHome : String → VisOutcome
  /-- `page.locator("a[href]").all()` inside `_find_product_url`
  (line 134, not under any `try` in the helper); `none` = raised,
  aborting the primary `try` -/
  anchorsMain : Option (List (Option String))
  grid : String → Option String
  /-- `page.goto(product_url)` (line 267); false = raised, caught by the
  traversal `try` (line 316) -/
  gotoProductOk : Bool
  overlaysProduct : Nat → String → OverlayOutcome
  quickBuyPdp : String → VisOutcome
  addClick : String → ClickOutcome
  /-- `page.wait_for_timeout(1_500)` (line 286) -/
  waitAfterAddOk : Bool
  cartClick : String → ClickOutcome
  /-- `page.wait_for_load_state(...)` after reaching the cart (line 292) -/
  cartSettleOk : Bool
  overlaysCart : Nat → String → OverlayOutcome
  checkoutClick : String → ClickOutcome
  /-- `page.wait_for_load_state(...)` after reaching checkout (line 300) -/
  checkoutSettleOk : Bool
  overlaysCheckout : Nat → String → OverlayOutcome
  guest : String → VisOutcome
  siteCart : List String → Option String
  primCookies : List String
  /-- `document.body.scrollWidth` in the mobile context (line 365);
  `none` = the navigation or evaluation raised -/
  mobileScroll : Option Int

/-! ## Checkout traversal (steps 5-9, lines 261-317) -/

/-- The "Quick buy on PDP" re-check (lines 273-280): only attempted when
the flag is still 0; the first visible candidate sets it. -/
def quickbuy_recheck (env : RunEnv) (r1 : Result) : Result × List Ev :=
  if r1.has_quick_buy = 0 then
    (if first_visible env.quickBuyPdp QUICK_BUY_SELECTORS then
      ({ r1 with has_quick_buy := 1 }, [Ev.quickBuyRecheck])
    else (r1, [Ev.quickBuyRecheck]))
  else (r1, [])

/-- The guest-checkout probe (lines 307-314): first visible candidate
sets the flag. -/
def guest_probe_stage (env : RunEnv) (r5 : Result) : Result :=
  if first_visible env.guest GUEST_CHECKOUT_SELECTORS then
    { r5 with has_guest_checkout := 1 }
  else r5

/-- Step 8-9 (lines 297-314): locate the checkout link; on success wait
for the page to settle, dismiss overlays, increment the depth counter,
commit it to the dict and probe guest checkout.  A raise from the settle
wait aborts (caught at line 316) before anything is committed. -/
def checkout_stage (env : RunEnv) (r3 : Result) (d3 : Int) : Result × List Ev :=
  if safe_click env.checkoutClick CHECKOUT_SELECTORS then
    if env.checkoutSettleOk then
      let pc3 := dismiss_overlays env.overlaysCheckout CLOSE_OVERLAY_SELECTORS
      let r4 := { r3 with popup_count := r3.popup_count + pc3 }
      let d4 := d3 + 1
      let r5 := { r4 with click_depth_to_checkout := d4 }
      (guest_probe_stage env r5, [Ev.checkoutProbe, Ev.transCheckout, Ev.guestProbe])
    else (r3, [Ev.checkoutProbe])
  else (r3, [Ev.checkoutProbe])

/-- Step 7 (lines 289-295): locate the cart link; on success wait for the
page to settle, dismiss overlays, increment the depth counter, and go on
to the checkout stage. -/
def cart_stage (env : RunEnv) (r2 : Result) (d2 : Int) : Result × List Ev :=
  if safe_click env.cartClick CART_SELECTORS then
    if env.cartSettleOk then
      let pc2 := dismiss_overlays env.overlaysCart CLOSE_OVERLAY_SELECTORS
      let r3 := { r2 with popup_count := r2.popup_count + pc2 }
      let d3 := d2 + 1
      let c := checkout_stage env r3 d3
      (c.1, Ev.cartProbe :: Ev.transCart :: c.2)
    else (r2, [Ev.cartProbe])
  else (r2, [Ev.cartProbe])

/-- Step 6 (lines 283-287): the add-to-cart cascade; on success wait
1.5 s, increment the depth counter, and go on to the cart stage.  If the
cascade finds no candidate, the cart and checkout cascades are never
invoked. -/
def add_stage (env : RunEnv) (r2 : Result) (d1 : Int) : Result × List Ev :=
  if safe_click env.addClick ADD_TO_CART_SELECTORS then
    if env.waitAfterAddOk then
      let d2 := d1 + 1
      let c := cart_stage env r2 d2
      (c.1, Ev.addProbe :: Ev.transAdd :: c.2)
    else (r2, [Ev.addProbe])
  else (r2, [Ev.addProbe])

/-- The `if product_url and product_url != url:` block (lines 261-317):
navigate to the product page, re-check quick buy, then the add-to-cart /
cart / checkout stages.  `r` is the dict so far; the local `click_depth`
counter starts at 1 (line 263) and is incremented once per successful
transition; it is committed to the dict only at checkout (line 304).
Any raise inside is caught by the enclosing `try` (line 316), halting
the traversal with the dict as mutated so far. -/
def checkout_traversal (env : RunEnv) (url : String) (r : Result)
    (pu : Option String) : Result × List Ev :=
  match pu with
  | none => (r, [])
  | some u =>
    if u = url then (r, [])
    else if env.gotoProductOk then
      let pc := dismiss_overlays env.overlaysProduct CLOSE_OVERLAY_SELECTORS
      let r1 := { r with popup_count := r.popup_count + pc }
      let d1 : Int := 1 + 1
      let qb := quickbuy_recheck env r1
      let a := add_stage env qb.1 d1
      (a.1, Ev.gotoProduct u :: Ev.transProduct :: qb.2 ++ a.2)
    else (r, [Ev.gotoProduct u])

/-! ## Primary session (steps 1-9) -/

/-- The primary desktop session: homepage load, overlay dismissal, page
capture, broken links, search autosuggest, quick buy, product discovery
and the checkout traversal.  A raise from the homepage `goto`, from
`page.content()` or from the anchor collection inside `_find_product_url`
jumps to the `except` at line 326, leaving the dict as mutated so far. -/
def primary_phase (env : RunEnv) (url : String) : Result × List Ev :=
  if env.gotoHome then
    let pc := dismiss_overlays env.overlaysHome CLOSE_OVERLAY_SELECTORS
    let r1 := { defaults with popup_count := (pc : Int) }
    match env.pageContent with
    | none => (r1, [])
    | some html =>
      let r2 := { r1 with page_html := html }
      let r3 := { r2 with
        broken_link_count := (count_broken_links url env.fetch env.navAnchors : Int) }
      let sp := search_probe env.search SEARCH_INPUT_SELECTORS false
      let r4 := { r3 with has_search_autosuggest := if sp.1 then 1 else 0 }
      let r5 :=
        if first_visible env.quickBuyHome QUICK_BUY_SELECTORS then
          { r4 with has_quick_buy := 1 }
        else r4
      match env.anchorsMain with
      | none => (r5, sp.2)
      | some anchors =>
        let pu := find_product_url anchors env.grid url
        let t := checkout_traversal env url r5 pu
        (t.1, sp.2 ++ t.2)
  else (defaults, [])

/-! ## Secondary sessions (steps 11-12, lines 332-371) -/

/-- The cart-persistence value: the fresh, cookie-isolated context
presents no cookies, so the body text it sees is `siteCart []`; the flag
is set when that text (lowercased) contains a cart keyword. -/
def cart_step (env : RunEnv) : Int :=
  match env.siteCart [] with
  | none => 0
  | some body =>
    if ["item", "product", "quantity", "subtotal"].any
        (fun kw => strHasSub (toLowerStr body) kw) then 1
    else 0

/-- The mobile-responsiveness value:
`int(scroll_width <= viewport_width + 20)` with the mobile viewport width,
0 when the navigation or evaluation raised. -/
def mobile_step (env : RunEnv) : Int :=
  match env.mobileScroll with
  | none => 0
  | some w => if w ≤ VIEWPORT_MOBILE.width + 20 then 1 else 0

/-! ## `get_behavioral_metrics(url)` (lines 199-374) -/

def get_behavioral_metrics (url : String) (env : RunEnv) : Result × List Ev :=
  let p := primary_phase env url
  ({ p.1 with
      cart_persistence := cart_step env,
      is_mobile_responsive := mobile_step env },
   p.2 ++ [Ev.freshCartGoto (urljoin url "/cart")])

/-! ## Helper lemmas -/

lemma safe_click_iff (env : String → ClickOutcome) (sels : List String) :
    safe_click env sels = true ↔ ∃ s, s ∈ sels ∧ env s = ClickOutcome.clicked := by
  induction sels with
  | nil => simp [safe_click]
  | cons a as ih =>
    cases h : env a with
    | clicked =>
      constructor
      · intro _; exact ⟨a, List.mem_cons_self a as, h⟩
      · intro _; simp [safe_click, h]
    | raiseOnWait =>
      simp only [safe_click, h, ih]
      constructor
      · rintro ⟨s, hs, hc⟩; exact ⟨s, List.mem_cons_of_mem a hs, hc⟩
      · rintro ⟨s, hs, hc⟩
        rcases List.mem_cons.mp hs with rfl | hs
        · rw [h] at hc; cases hc
        · exact ⟨s, hs, hc⟩
    | raiseOnClick =>
      simp only [safe_click, h, ih]
      constructor
      · rintro ⟨s, hs, hc⟩; exact ⟨s, List.mem_cons_of_mem a hs, hc⟩
      · rintro ⟨s, hs, hc⟩
        rcases List.mem_cons.mp hs with rfl | hs
        · rw [h] at hc; cases hc
        · exact ⟨s, hs, hc⟩

lemma safe_click_false_of_none (env : String → ClickOutcome) (sels : List String)
    (h : ∀ s ∈ sels, env s ≠ ClickOutcome.clicked) : safe_click env sels = false := by
  cases hc : safe_click env sels with
  | false => rfl
  | true =>
    rcases (safe_click_iff env sels).mp hc with ⟨s, hs, he⟩
    exact absurd he (h s hs)

lemma safe_click_probes_all (env : String → ClickOutcome) (sels : List String)
    (h : safe_click env sels = false) : safe_click_probes env sels = sels := by
  induction sels with
  | nil => rfl
  | cons a as ih =>
    cases ha : env a with
    | clicked =>
      simp only [safe_click, ha] at h
      exact Bool.noConfusion h
    | raiseOnWait =>
      simp only [safe_click, ha] at h
      simp only [safe_click_probes, ha, ih h]
    | raiseOnClick =>
      simp only [safe_click, ha] at h
      simp only [safe_click_probes, ha, ih h]

lemma safe_click_probes_ordered (env : String → ClickOutcome) (sels : List String) :
    (safe_click_probes env sels).isPrefixOf sels = true := by
  induction sels with
  | nil => rfl
  | cons a as ih =>
    cases ha : env a with
    | clicked => simp [safe_click_probes, ha, List.isPrefixOf]
    | raiseOnWait => simp [safe_click_probes, ha, List.isPrefixOf, ih]
    | raiseOnClick => simp [safe_click_probes, ha, List.isPrefixOf, ih]

lemma overlay_pass_probes_le (env : String → OverlayOutcome) (sels : List String) :
    (overlay_pass env sels).2.2 ≤ sels.length := by
  induction sels with
  | nil => simp [overlay_pass]
  | cons a as ih =>
    cases ha : env a with
    | clicked => simp [overlay_pass, ha]
    | clickedWaitRaise => simp only [overlay_pass, ha, List.length_cons]; omega
    | raiseOnVis => simp only [overlay_pass, ha, List.length_cons]; omega
    | notVisible => simp only [overlay_pass, ha, List.length_cons]; omega
    | raiseOnClick => simp only [overlay_pass, ha, List.length_cons]; omega

/-- The dismissal count of one pass is exactly the number of probed
candidates whose click succeeded (the probed candidates being the first
`probes` of the list). -/
lemma overlay_pass_count (env : String → OverlayOutcome) :
    ∀ sels : List String,
      (overlay_pass env sels).2.1 =
        ((sels.take (overlay_pass env sels).2.2).countP
          (fun s => overlay_click_succeeded (env s))) := by
  intro sels
  induction sels with
  | nil => rfl
  | cons a rest ih =>
    cases ha : env a with
    | clicked =>
      have ht : List.take 1 (a :: rest) = [a] := rfl
      simp [overlay_pass, ha, overlay_click_succeeded, ht, List.countP_cons,
        List.countP_nil]
    | clickedWaitRaise =>
      simp [overlay_pass, ha, overlay_click_succeeded, List.countP_cons,
        List.take_succ_cons, ih]
    | raiseOnVis =>
      simp [overlay_pass, ha, overlay_click_succeeded, List.countP_cons,
        List.take_succ_cons, ih]
    | notVisible =>
      simp [overlay_pass, ha, overlay_click_succeeded, List.countP_cons,
        List.take_succ_cons, ih]
    | raiseOnClick =>
      simp [overlay_pass, ha, overlay_click_succeeded, List.countP_cons,
        List.take_succ_cons, ih]

lemma dismiss_go_spec (env : Nat → String → OverlayOutcome) (sels : List String) :
    ∀ (fuel round : Nat),
      (dismiss_go env sels round fuel).2.2 ≤ fuel ∧
      (dismiss_go env sels round fuel).2.1 ≤ fuel * sels.length ∧
      (dismiss_go env sels round fuel).1 =
        ∑ i ∈ Finset.range (dismiss_go env sels round fuel).2.2,
          (overlay_pass (env (round + i)) sels).2.1 ∧
      (∀ i, i + 1 < (dismiss_go env sels round fuel).2.2 →
        (overlay_pass (env (round + i)) sels).1 = true) ∧
      ((dismiss_go env sels round fuel).2.2 < fuel →
        ∃ j, (dismiss_go env sels round fuel).2.2 = j + 1 ∧
          (overlay_pass (env (round + j)) sels).1 = false) := by
  intro fuel
  induction fuel with
  | zero => intro round; simp [dismiss_go]
  | succ n ih =>
    intro round
    rcases ih (round + 1) with ⟨h1, h2, h3, h4, h5⟩
    have hpl := overlay_pass_probes_le (env round) sels
    cases hp : (overlay_pass (env round) sels).1 with
    | true =>
      simp only [dismiss_go, hp, if_true]
      refine ⟨by omega, ?_, ?_, ?_, ?_⟩
      · rw [Nat.succ_mul]; omega
      · rw [Finset.sum_range_succ']
        have hsum : ∑ i ∈ Finset.range (dismiss_go env sels (round + 1) n).2.2,
            (overlay_pass (env (round + (i + 1))) sels).2.1
            = (dismiss_go env sels (round + 1) n).1 := by
          rw [h3]
          apply Finset.sum_congr rfl
          intro i _
          have harg : round + (i + 1) = round + 1 + i := by omega
          rw [harg]
        rw [hsum]
        simp [Nat.add_comm]
      · intro i hi
        cases i with
        | zero => simpa using hp
        | succ j =>
          have := h4 j (by omega)
          have hrw : round + (j + 1) = round + 1 + j := by omega
          rw [hrw]; exact this
      · intro hlt
        obtain ⟨j, hkeq, hpass⟩ := h5 (by omega)
        refine ⟨j + 1, by omega, ?_⟩
        have hrw : round + (j + 1) = round + 1 + j := by omega
        rw [hrw]; exact hpass
    | false =>
      simp only [dismiss_go, hp, Bool.false_eq_true, if_false]
      refine ⟨by omega, ?_, ?_, ?_, ?_⟩
      · rw [Nat.succ_mul]; omega
      · rw [Finset.sum_range_one]
        simp
      · intro i hi; omega
      · intro _
        exact ⟨0, rfl, by simpa using hp⟩

/-! ## C3 — the DOM locator cascade -/

/-- C3 counterexample. The claim states that `_safe_click` "returns a
tri-state outcome distinguishing matched-and-acted,
matched-but-action-failed, and no-match".  At the concrete one-candidate
list `["button"]`, the environment in which the candidate became visible
but its click raised (matched-but-action-failed) and the environment in
which the candidate never became visible (no-match) produce the *same*
return value `false`: the function returns a boolean, so no reading of its
result can distinguish the two outcomes, and the claim as stated is false. -/
theorem C3_counterexample :
    safe_click (fun _ => ClickOutcome.raiseOnClick) ["button"] =
      safe_click (fun _ => ClickOutcome.raiseOnWait) ["button"] ∧
    safe_click (fun _ => ClickOutcome.raiseOnClick) ["button"] = false := by
  decide

/-- C3 (amended): the cascade probes candidates in list order (its probe
list is a prefix of the candidate list), catches every per-candidate
exception and treats it as "try next candidate", never raises (it is a
total boolean function), and returns a *two-state* outcome: `true` exactly
when some candidate was matched and clicked; a matched candidate whose
click failed is treated as "try next candidate" and is indistinguishable
from no-match, `false` being returned only after the whole list was
probed. -/
theorem C3_locator_cascade :
    ∀ (env : String → ClickOutcome) (sels : List String),
      (safe_click env sels = true ↔ ∃ s, s ∈ sels ∧ env s = ClickOutcome.clicked) ∧
      (safe_click env sels = false → safe_click_probes env sels = sels) ∧
      (safe_click_probes env sels).isPrefixOf sels = true := by
  intro env sels
  exact ⟨safe_click_iff env sels, safe_click_probes_all env sels,
    safe_click_probes_ordered env sels⟩

/-! ## C5 — the overlay dismissal loop -/

/-- C5: over any candidate list and any page behaviour, the overlay loop
makes at most `5 * |candidates|` per-candidate probes; it executes at
most 5 rounds, every round before the last one dismissed at least one
overlay, and if it stopped before the round ceiling, the final pass found
nothing to dismiss — i.e. the loop stops at the first pass that dismisses
nothing, or after 5 rounds, whichever comes first; and the returned value
is the count of overlays actually dismissed: the sum over the executed
passes of the dismissals of each pass, where the dismissal count of a
pass is exactly the number of probed candidates whose click succeeded (a pass can dismiss
more than one overlay when a post-click settle wait raises, which the
per-candidate `except` swallows after `count += 1`, letting the pass
continue). -/
theorem C5_overlay_loop_bounded :
    ∀ (env : Nat → String → OverlayOutcome) (sels : List String),
      (dismiss_overlays_full env sels).2.1 ≤ 5 * sels.length ∧
      dismiss_overlays env sels = (dismiss_overlays_full env sels).1 ∧
      (dismiss_overlays_full env sels).2.2 ≤ 5 ∧
      (dismiss_overlays_full env sels).1 =
        ∑ i ∈ Finset.range (dismiss_overlays_full env sels).2.2,
          (overlay_pass (env i) sels).2.1 ∧
      (∀ (env2 : String → OverlayOutcome) (sels2 : List String),
        (overlay_pass env2 sels2).2.1 =
          ((sels2.take (overlay_pass env2 sels2).2.2).countP
            (fun s => overlay_click_succeeded (env2 s)))) ∧
      (∀ i, i + 1 < (dismiss_overlays_full env sels).2.2 →
        (overlay_pass (env i) sels).1 = true) ∧
      ((dismiss_overlays_full env sels).2.2 < 5 →
        ∃ j, (dismiss_overlays_full env sels).2.2 = j + 1 ∧
          (overlay_pass (env j) sels).1 = false) := by
  intro env sels
  rcases dismiss_go_spec env sels 5 0 with ⟨h1, h2, h3, h4, h5⟩
  unfold dismiss_overlays_full
  refine ⟨h2, rfl, h1, ?_, ?_, ?_, ?_⟩
  · rw [h3]
    apply Finset.sum_congr rfl
    intro i _
    rw [Nat.zero_add]
  · intro env2 sels2
    exact overlay_pass_count env2 sels2
  · intro i hi
    have := h4 i hi
    simpa using this
  · intro hlt
    obtain ⟨j, hkeq, hpass⟩ := h5 hlt
    exact ⟨j, hkeq, by simpa using hpass⟩

/-! ## C1 — every signal field is always present -/

/-- An environment for a total session failure: the homepage never loads,
both secondary sessions raise, every probe raises. -/
def envAllFail : RunEnv :=
  { gotoHome := false,
    overlaysHome := fun _ _ => OverlayOutcome.raiseOnVis,
    pageContent := none,
    navAnchors := none,
    fetch := fun _ => FetchOutcome.err,
    search := fun _ =>
      { vis := VisOutcome.raiseOnVis, clickOk := false, typeOk := false,
        waitOk := false, suggest := fun _ => VisOutcome.raiseOnVis, fillOk := false },
    quickBuyHome := fun _ => VisOutcome.raiseOnVis,
    anchorsMain := none,
    grid := fun _ => none,
    gotoProductOk := false,
    overlaysProduct := fun _ _ => OverlayOutcome.raiseOnVis,
    quickBuyPdp := fun _ => VisOutcome.raiseOnVis,
    addClick := fun _ => ClickOutcome.raiseOnWait,
    waitAfterAddOk := false,
    cartClick := fun _ => ClickOutcome.raiseOnWait,
    cartSettleOk := false,
    overlaysCart := fun _ _ => OverlayOutcome.raiseOnVis,
    checkoutClick := fun _ => ClickOutcome.raiseOnWait,
    checkoutSettleOk := false,
    overlaysCheckout := fun _ _ => OverlayOutcome.raiseOnVis,
    guest := fun _ => VisOutcome.raiseOnVis,
    siteCart := fun _ => none,
    primCookies := [],
    mobileScroll := none }

/-- C1: for every input URL and every environment (hence regardless of
which collection steps failed or were skipped), the result mapping carries
exactly the eight signal keys, each bound to a (typed, integer) value —
absence is never used to signal failure; and on a total session failure
the result is exactly the `defaults` record, whose rows bind each signal
key to its typed default (0 for the flags and counts, -1 for the click
depth). -/
theorem C1_fields_always_present :
    (∀ (url : String) (env : RunEnv),
      ((get_behavioral_metrics url env).1.toFields.map Prod.fst) = signalKeys) ∧
    (get_behavioral_metrics "https://example.com" envAllFail).1 = defaults ∧
    defaults.toFields =
      [("popup_count", 0), ("has_guest_checkout", 0),
       ("click_depth_to_checkout", -1), ("cart_persistence", 0),
       ("has_search_autosuggest", 0), ("has_quick_buy", 0),
       ("broken_link_count", 0), ("is_mobile_responsive", 0)] := by
  refine ⟨fun url env => rfl, ?_, rfl⟩
  rfl

/-! ## C8 — mobile responsiveness boundary -/

/-- C8: whenever the layout measurement of the mobile session succeeds and
reports scroll width `w`, the field `is_mobile_responsive` is 1 exactly
when `w` is at most the mobile viewport width (390) plus 20, and 0 exactly
otherwise — the boundary `w = viewport_width + 20` inclusive on the
responsive side. -/
theorem C8_mobile_responsive_boundary :
    ∀ (url : String) (env : RunEnv) (w : Int),
      env.mobileScroll = some w →
      (((get_behavioral_metrics url env).1.is_mobile_responsive = 1 ↔
        w ≤ VIEWPORT_MOBILE.width + 20) ∧
       ((get_behavioral_metrics url env).1.is_mobile_responsive = 0 ↔
        ¬ w ≤ VIEWPORT_MOBILE.width + 20)) := by
  intro url env w h
  have hproj : (get_behavioral_metrics url env).1.is_mobile_responsive
      = mobile_step env := rfl
  rw [hproj, mobile_step, h]
  by_cases hw : w ≤ VIEWPORT_MOBILE.width + 20
  · simp [hw]
  · simp [hw]

/-- C8 witness: at the exact boundary (scroll width 410 = 390 + 20) the
flag is 1; one unit above (411) it is 0. -/
theorem C8_mobile_responsive_boundary_witness :
    (get_behavioral_metrics "https://example.com"
      { envAllFail with mobileScroll := some 410 }).1.is_mobile_responsive = 1 ∧
    (get_behavioral_metrics "https://example.com"
      { envAllFail with mobileScroll := some 411 }).1.is_mobile_responsive = 0 := by
  constructor
  · exact (C8_mobile_responsive_boundary "https://example.com"
      { envAllFail with mobileScroll := some 410 } 410 rfl).1.mpr (by decide)
  · exact (C8_mobile_responsive_boundary "https://example.com"
      { envAllFail with mobileScroll := some 411 } 411 rfl).2.mpr (by decide)

/-! ## C4 — the link health sampler -/

lemma sample_go_spec (base : String) (fetch : String → FetchOutcome) :
    ∀ (anchors : List (Option String)) (seen : List String),
      (sample_go base fetch seen anchors).requested.length ≤ anchors.length ∧
      (∀ h ∈ (sample_go base fetch seen anchors).requested, h ∉ seen) ∧
      (sample_go base fetch seen anchors).requested.Nodup ∧
      (∀ h ∈ (sample_go base fetch seen anchors).requested,
        ¬ h = "" ∧ strStartsWith h "#" = false ∧ strStartsWith h "mailto:" = false ∧
        strStartsWith h "tel:" = false ∧ netlocOf (urljoin base h) = netlocOf base) ∧
      (sample_go base fetch seen anchors).broken =
        ((sample_go base fetch seen anchors).requested.filter
          (fun x => fetch (urljoin base x) == FetchOutcome.status 404)).length := by
  intro anchors
  induction anchors with
  | nil => intro seen; simp [sample_go]
  | cons a rest ih =>
    intro seen
    cases a with
    | none =>
      rcases ih seen with ⟨h1, h2, h3, h4, h5⟩
      exact ⟨Nat.le_succ_of_le h1, h2, h3, h4, h5⟩
    | some h =>
      simp only [sample_go]
      split
      · rcases ih seen with ⟨h1, h2, h3, h4, h5⟩
        exact ⟨Nat.le_succ_of_le h1, h2, h3, h4, h5⟩
      · next hskip =>
        split
        · rcases ih seen with ⟨h1, h2, h3, h4, h5⟩
          exact ⟨Nat.le_succ_of_le h1, h2, h3, h4, h5⟩
        · next hnet =>
          rcases ih (h :: seen) with ⟨h1, h2, h3, h4, h5⟩
          have hnotseen : h ∉ seen := by
            intro hmem
            apply hskip
            simp [hmem]
          have hgood : ¬ h = "" ∧ strStartsWith h "#" = false ∧
              strStartsWith h "mailto:" = false ∧ strStartsWith h "tel:" = false := by
            refine ⟨?_, ?_, ?_, ?_⟩
            · intro he; exact hskip (by simp [he])
            · cases hs : strStartsWith h "#" with
              | false => rfl
              | true => exact absurd (by simp [hs]) hskip
            · cases hs : strStartsWith h "mailto:" with
              | false => rfl
              | true => exact absurd (by simp [hs]) hskip
            · cases hs : strStartsWith h "tel:" with
              | false => rfl
              | true => exact absurd (by simp [hs]) hskip
          have hneq : netlocOf (urljoin base h) = netlocOf base := not_not.mp hnet
          have hnotreq : h ∉ (sample_go base fetch (h :: seen) rest).requested := by
            intro hmem
            exact (h2 h hmem) (List.mem_cons_self h seen)
          have hmain :
              ∀ s2 : LinkSample,
                s2.requested = h :: (sample_go base fetch (h :: seen) rest).requested →
                s2.broken = (if fetch (urljoin base h) == FetchOutcome.status 404
                    then (sample_go base fetch (h :: seen) rest).broken + 1
                    else (sample_go base fetch (h :: seen) rest).broken) →
                s2.requested.length ≤ rest.length + 1 ∧
                (∀ x ∈ s2.requested, x ∉ seen) ∧
                s2.requested.Nodup ∧
                (∀ x ∈ s2.requested,
                  ¬ x = "" ∧ strStartsWith x "#" = false ∧ strStartsWith x "mailto:" = false ∧
                  strStartsWith x "tel:" = false ∧ netlocOf (urljoin base x) = netlocOf base) ∧
                s2.broken = (s2.requested.filter
                  (fun x => fetch (urljoin base x) == FetchOutcome.status 404)).length := by
            intro s2 hreq hbro
            refine ⟨?_, ?_, ?_, ?_, ?_⟩
            · rw [hreq]; simpa using h1
            · intro x hx
              rw [hreq] at hx
              rcases List.mem_cons.mp hx with rfl | hx
              · exact hnotseen
              · intro hseen; exact (h2 x hx) (List.mem_cons_of_mem h hseen)
            · rw [hreq]; exact List.nodup_cons.mpr ⟨hnotreq, h3⟩
            · intro x hx
              rw [hreq] at hx
              rcases List.mem_cons.mp hx with rfl | hx
              · exact ⟨hgood.1, hgood.2.1, hgood.2.2.1, hgood.2.2.2, hneq⟩
              · exact h4 x hx
            · rw [hreq, hbro, List.filter_cons]
              cases hf : (fetch (urljoin base h) == FetchOutcome.status 404) with
              | true => simp [hf, h5]
              | false => simp [hf, h5]
          cases hfetch : fetch (urljoin base h) with
          | status c =>
            by_cases hc : c = 404
            · exact hmain _ (by simp [hfetch]) (by simp [hfetch, hc])
            · refine hmain _ (by simp [hfetch]) ?_
              simp only [hfetch]
              have : (FetchOutcome.status c == FetchOutcome.status 404) = false := by
                simp [hc]
              simp [this, hc]
          | err =>
            refine hmain _ (by simp [hfetch]) ?_
            simp [hfetch]

/-- The broken-link fixture: ten sampled nav anchors, among them one
cross-origin link whose target is a 404 (`https://ads.example/promo`) and
one same-origin link whose target is a 404 (`/dead`). -/
def fixAnchors : List (Option String) :=
  [some "/a", some "/b", some "/c", some "/d", some "/e", some "/f",
   some "/g", some "https://ads.example/promo", some "/dead", some "/i"]

def fixFetch : String → FetchOutcome := fun u =>
  if u = "http://shop.example/dead" then FetchOutcome.status 404
  else if u = "https://ads.example/promo" then FetchOutcome.status 404
  else FetchOutcome.status 200

/-- C4: the sampler requests at most 10 links; the requested hrefs are
pairwise distinct (de-duplicated), none is empty, fragment-only, `mailto:`
or `tel:`, and every one resolves same-origin with the base URL
(cross-origin links are skipped before any request); the broken count is
exactly the number of requested links whose check returned status 404 —
a failed check (`FetchOutcome.err`) is never counted.  And on the fixture
with one cross-origin 404 and one same-origin 404 among ten sampled
links, `_count_broken_links` returns 1. -/
theorem C4_link_health_sampler :
    (∀ (base : String) (fetch : String → FetchOutcome) (anchors : List (Option String)),
      (sample_links base fetch anchors).requested.length ≤ 10 ∧
      (sample_links base fetch anchors).requested.Nodup ∧
      (∀ h ∈ (sample_links base fetch anchors).requested,
        ¬ h = "" ∧ strStartsWith h "#" = false ∧ strStartsWith h "mailto:" = false ∧
        strStartsWith h "tel:" = false ∧ netlocOf (urljoin base h) = netlocOf base) ∧
      (sample_links base fetch anchors).broken =
        ((sample_links base fetch anchors).requested.filter
          (fun x => fetch (urljoin base x) == FetchOutcome.status 404)).length) ∧
    count_broken_links "http://shop.example/" fixFetch (some fixAnchors) = 1 := by
  constructor
  · intro base fetch anchors
    rcases sample_go_spec base fetch (anchors.take 10) [] with ⟨h1, _, h3, h4, h5⟩
    refine ⟨?_, h3, h4, h5⟩
    calc (sample_links base fetch anchors).requested.length
        ≤ (anchors.take 10).length := h1
      _ ≤ 10 := List.length_take_le 10 anchors
  · decide

/-! ## C6 — product discovery -/

lemma scan_pattern_eq (base : String) :
    ∀ l : List (Option String),
      scan_pattern base l = l.findSome? (fun h? => h?.bind (fun h =>
        if h = "" then none
        else if product_link_match h then some (urljoin base h) else none)) := by
  intro l
  induction l with
  | nil => rfl
  | cons a rest ih =>
    cases a with
    | none => simpa [scan_pattern, List.findSome?] using ih
    | some h =>
      by_cases he : h = ""
      · simp [scan_pattern, List.findSome?, he, ih]
      · by_cases hm : product_link_match h
        · simp [scan_pattern, List.findSome?, he, hm]
        · simp [scan_pattern, List.findSome?, he, hm, ih]

lemma scan_grid_eq (base : String) (grid : String → Option String) :
    ∀ sels : List String,
      scan_grid base grid sels = sels.findSome? (fun sel => (grid sel).bind (fun h =>
        if h = "" then none else some (urljoin base h))) := by
  intro sels
  induction sels with
  | nil => rfl
  | cons a rest ih =>
    cases hg : grid a with
    | none => simp [scan_grid, List.findSome?, hg, ih]
    | some h =>
      by_cases he : h = ""
      · simp [scan_grid, List.findSome?, hg, he, ih]
      · simp [scan_grid, List.findSome?, hg, he]

lemma scan_window_eq (base : String) :
    ∀ l : List (Option String),
      scan_window base l = l.findSome? (fun h? => h?.bind (fun h =>
        if h = "" then none
        else if (strStartsWith h "/" || strStartsWith h base) && !(strHasSub h "#")
        then some (urljoin base h) else none)) := by
  intro l
  induction l with
  | nil => rfl
  | cons a rest ih =>
    cases a with
    | none => simpa [scan_window, List.findSome?] using ih
    | some h =>
      by_cases he : h = ""
      · simp [scan_window, List.findSome?, he, ih]
      · cases hc : (strStartsWith h "/" || strStartsWith h base) && !(strHasSub h "#") with
        | true =>
          simp only [scan_window, List.findSome?, Option.some_bind, if_neg he]
          rw [hc]
          simp
        | false =>
          simp only [scan_window, List.findSome?, Option.some_bind, if_neg he]
          rw [hc]
          simp [ih]

lemma scan_pattern_some (base : String) :
    ∀ (l : List (Option String)) (u : String),
      scan_pattern base l = some u → ∃ h, u = urljoin base h := by
  intro l
  induction l with
  | nil => intro u hu; cases hu
  | cons a rest ih =>
    intro u hu
    cases a with
    | none => exact ih u hu
    | some h =>
      by_cases he : h = ""
      · simp only [scan_pattern, he, if_pos rfl] at hu
        exact ih u (by simpa [he] using hu)
      · by_cases hm : product_link_match h
        · simp only [scan_pattern, if_neg he, hm, if_pos] at hu
          exact ⟨h, (Option.some_inj.mp hu).symm⟩
        · simp only [scan_pattern, if_neg he, hm] at hu
          exact ih u (by simpa using hu)

lemma scan_grid_some (base : String) (grid : String → Option String) :
    ∀ (sels : List String) (u : String),
      scan_grid base grid sels = some u → ∃ h, u = urljoin base h := by
  intro sels
  induction sels with
  | nil => intro u hu; cases hu
  | cons a rest ih =>
    intro u hu
    cases hg : grid a with
    | none =>
      simp only [scan_grid, hg] at hu
      exact ih u hu
    | some h =>
      simp only [scan_grid, hg] at hu
      by_cases he : h = ""
      · rw [if_pos he] at hu
        exact ih u hu
      · rw [if_neg he] at hu
        exact ⟨h, (Option.some_inj.mp hu).symm⟩

lemma scan_window_some (base : String) :
    ∀ (l : List (Option String)) (u : String),
      scan_window base l = some u → ∃ h, u = urljoin base h := by
  intro l
  induction l with
  | nil => intro u hu; cases hu
  | cons a rest ih =>
    intro u hu
    cases a with
    | none => exact ih u hu
    | some h =>
      by_cases he : h = ""
      · rw [scan_window, if_pos he] at hu
        exact ih u hu
      · cases hc : (strStartsWith h "/" || strStartsWith h base) && !(strHasSub h "#") with
        | true =>
          rw [scan_window, if_neg he, hc, if_pos rfl] at hu
          exact ⟨h, (Option.some_inj.mp hu).symm⟩
        | false =>
          rw [scan_window, if_neg he, hc] at hu
          exact ih u (by simpa using hu)

/-- The counterexample anchor list: the sixth anchor carries a
scheme-relative href pointing at a different host. -/
def cexAnchors : List (Option String) :=
  [none, none, none, none, none, some "//evil.example/x"]

/-- C6 counterexample.  The claim describes strategy 3 as scanning for "a
same-origin path-relative link without a fragment identifier".  The code
actually accepts any href that starts with `"/"` or with the base URL and
has no `"#"` — which includes scheme-relative `//host/...` hrefs.  On this
concrete input (strategies 1 and 2 find nothing), `_find_product_url`
returns `http://evil.example/x`, whose origin differs from the base
origin `shop.example`: strategy 3 does not only yield same-origin
path-relative links, so the claim as stated is false. -/
theorem C6_counterexample :
    find_product_url cexAnchors (fun _ => none) "http://shop.example/" =
      some "http://evil.example/x" ∧
    netlocOf "http://evil.example/x" ≠ netlocOf "http://shop.example/" ∧
    strStartsWith "//evil.example/x" "/" = true ∧
    strHasSub "//evil.example/x" "#" = false := by
  decide

/-- C6 (amended): product discovery tries exactly three strategies in
order, the first to yield a usable link winning: (1) the first 60 anchors
scanned for a product-path-convention href (`/product/`, `/item/`, `/p/`,
`/shop/`, `/detail/`, `/goods/`, `/pd/`, case-insensitive); (2) the first
product-grid selector whose first anchor yields a non-empty href; (3)
anchors 6 through 30 scanned for a non-empty href that starts with `"/"`
or with the base URL and contains no `"#"` character (such an href is not
necessarily same-origin: a scheme-relative `//host/...` href qualifies).
Every returned URL is resolved against the base URL with `urljoin`, and
`none` is returned exactly when all three strategies fail. -/
theorem C6_product_discovery :
    ∀ (anchors : List (Option String)) (grid : String → Option String) (base : String),
      (find_product_url anchors grid base =
        ((anchors.take 60).findSome? (fun h? => h?.bind (fun h =>
            if h = "" then none
            else if product_link_match h then some (urljoin base h) else none))
          <|>
         (GRID_SELECTORS.findSome? (fun sel => (grid sel).bind (fun h =>
            if h = "" then none else some (urljoin base h)))
          <|>
          ((anchors.drop 5).take 25).findSome? (fun h? => h?.bind (fun h =>
            if h = "" then none
            else if (strStartsWith h "/" || strStartsWith h base) && !(strHasSub h "#")
            then some (urljoin base h) else none))))) ∧
      (∀ u, find_product_url anchors grid base = some u → ∃ h, u = urljoin base h) ∧
      (find_product_url anchors grid base = none ↔
        (scan_pattern base (anchors.take 60) = none ∧
         scan_grid base grid GRID_SELECTORS = none ∧
         scan_window base ((anchors.drop 5).take 25) = none)) := by
  intro anchors grid base
  refine ⟨?_, ?_, ?_⟩
  · rw [← scan_pattern_eq base (anchors.take 60),
      ← scan_grid_eq base grid GRID_SELECTORS,
      ← scan_window_eq base ((anchors.drop 5).take 25)]
    cases h1 : scan_pattern base (anchors.take 60) with
    | some u => simp [find_product_url, h1]
    | none =>
      cases h2 : scan_grid base grid GRID_SELECTORS with
      | some u => simp [find_product_url, h1, h2]
      | none => simp [find_product_url, h1, h2]
  · intro u hu
    rw [find_product_url] at hu
    cases h1 : scan_pattern base (anchors.take 60) with
    | some v =>
      rw [h1] at hu
      exact scan_pattern_some base _ u (h1.trans hu)
    | none =>
      rw [h1] at hu
      cases h2 : scan_grid base grid GRID_SELECTORS with
      | some v =>
        rw [h2] at hu
        exact scan_grid_some base grid _ u (h2.trans hu)
      | none =>
        rw [h2] at hu
        exact scan_window_some base _ u hu
  · rw [find_product_url]
    cases h1 : scan_pattern base (anchors.take 60) with
    | some u => simp [h1]
    | none =>
      cases h2 : scan_grid base grid GRID_SELECTORS with
      | some u => simp [h1, h2]
      | none => simp [h1, h2]

/-! ## C9 — the search probe clearing of typed text -/

/-- A search environment in which the first search input is found, the
query is typed, the autosuggest probe completes without a match, and the
final `inp.fill("")` raises. -/
def cenvFillFail : String → SearchProbeEnv := fun s =>
  if s = "input[type=\x27search\x27]" then
    { vis := VisOutcome.visible, clickOk := true, typeOk := true, waitOk := true,
      suggest := fun _ => VisOutcome.notVisible, fillOk := false }
  else
    { vis := VisOutcome.notVisible, clickOk := false, typeOk := false,
      waitOk := false, suggest := fun _ => VisOutcome.notVisible, fillOk := false }

/-- A search environment in which the first search input is found and
every step of the probe, including the clear, succeeds. -/
def cenvFillOk : String → SearchProbeEnv := fun s =>
  if s = "input[type=\x27search\x27]" then
    { vis := VisOutcome.visible, clickOk := true, typeOk := true, waitOk := true,
      suggest := fun _ => VisOutcome.notVisible, fillOk := true }
  else
    { vis := VisOutcome.notVisible, clickOk := false, typeOk := false,
      waitOk := false, suggest := fun _ => VisOutcome.notVisible, fillOk := false }

/-- C9 counterexample.  The claim says the probe "always clears the typed
text afterward, for every outcome of the autosuggest visibility check".
In this concrete run the query token is typed into the located search
input and the visibility check completes (outcome: not detected), the
clear action is invoked — but it raises, the per-selector `except`
silently swallows the exception, and the typed text is never cleared (no
`cleared` event exists in the trace): the loop simply moves on with the
input still holding the query, so the claim as stated is false. -/
theorem C9_counterexample :
    Ev.typed "input[type=\x27search\x27]"
      ∈ (search_probe cenvFillFail SEARCH_INPUT_SELECTORS false).2 ∧
    Ev.fillInvoked "input[type=\x27search\x27]"
      ∈ (search_probe cenvFillFail SEARCH_INPUT_SELECTORS false).2 ∧
    Ev.cleared "input[type=\x27search\x27]"
      ∉ (search_probe cenvFillFail SEARCH_INPUT_SELECTORS false).2 := by
  decide

/-- C9 (amended): whenever the probe finishes typing its query token into
a located search input and the settle wait completes, the clear action
(`inp.fill("")`) is invoked afterwards for *every* outcome of the
autosuggest visibility check (detected, not detected, or per-candidate
errors — the exceptions of the check itself are all caught and cannot skip the
clear); the typed text is actually cleared whenever that clear action
itself succeeds.  If the clear raises (or an exception strikes between
typing and the check), the text remains and the loop falls through to
the next candidate. -/
theorem C9_search_probe_clear :
    ∀ (env : String → SearchProbeEnv) (sels : List String) (acc : Bool) (sel : String),
      Ev.typed sel ∈ (search_probe env sels acc).2 →
      (env sel).waitOk = true →
      (Ev.fillInvoked sel ∈ (search_probe env sels acc).2 ∧
       ((env sel).fillOk = true → Ev.cleared sel ∈ (search_probe env sels acc).2)) := by
  intro env sels
  induction sels with
  | nil =>
    intro acc sel htyped _
    simp [search_probe] at htyped
  | cons s rest ih =>
    intro acc sel htyped hwait
    cases hv : (env s).vis with
    | raiseOnVis =>
      simp only [search_probe, hv] at htyped ⊢
      exact ih acc sel htyped hwait
    | notVisible =>
      simp only [search_probe, hv] at htyped ⊢
      exact ih acc sel htyped hwait
    | visible =>
      cases hclick : (env s).clickOk with
      | false =>
        simp only [search_probe, hv, hclick, Bool.false_eq_true, if_false] at htyped ⊢
        exact ih acc sel htyped hwait
      | true =>
        cases htype : (env s).typeOk with
        | false =>
          simp only [search_probe, hv, hclick, htype, Bool.false_eq_true,
            if_true, if_false] at htyped ⊢
          exact ih acc sel htyped hwait
        | true =>
          cases hwaitS : (env s).waitOk with
          | false =>
            simp only [search_probe, hv, hclick, htype, hwaitS, Bool.false_eq_true,
              if_true, if_false, List.mem_cons] at htyped ⊢
            rcases htyped with heq | htyped
            · cases heq
              rw [hwaitS] at hwait
              cases hwait
            · rcases ih acc sel htyped hwait with ⟨h1, h2⟩
              exact ⟨Or.inr h1, fun hf => Or.inr (h2 hf)⟩
          | true =>
            cases hfill : (env s).fillOk with
            | true =>
              simp only [search_probe, hv, hclick, htype, hwaitS, hfill, if_true,
                List.mem_cons, List.mem_singleton] at htyped ⊢
              rcases htyped with heq | heq | heq | heq
              · cases heq
                exact ⟨Or.inr (Or.inl rfl), fun _ => Or.inr (Or.inr (Or.inl rfl))⟩
              · cases heq
              · cases heq
              · cases heq
            | false =>
              simp only [search_probe, hv, hclick, htype, hwaitS, hfill,
                Bool.false_eq_true, if_true, if_false, List.mem_cons] at htyped ⊢
              rcases htyped with heq | heq | htyped
              · cases heq
                refine ⟨Or.inr (Or.inl rfl), fun hf => ?_⟩
                rw [hfill] at hf
                cases hf
              · cases heq
              · rcases ih _ sel htyped hwait with ⟨h1, h2⟩
                exact ⟨Or.inr (Or.inr h1), fun hf => Or.inr (Or.inr (h2 hf))⟩

/-- C9 witness: in a run where the first search input is located and
every step succeeds, the clear is invoked and the text is cleared. -/
theorem C9_search_probe_clear_witness :
    Ev.fillInvoked "input[type=\x27search\x27]"
      ∈ (search_probe cenvFillOk SEARCH_INPUT_SELECTORS false).2 ∧
    Ev.cleared "input[type=\x27search\x27]"
      ∈ (search_probe cenvFillOk SEARCH_INPUT_SELECTORS false).2 := by
  have h := C9_search_probe_clear cenvFillOk SEARCH_INPUT_SELECTORS false
    "input[type=\x27search\x27]" (by decide) (by decide)
  exact ⟨h.1, h.2 (by decide)⟩

/-! ## C7 — cart persistence runs on a fresh, cookie-isolated session -/

/-- A site that keeps its cart purely in the cookie jar of the primary
session: with the primary-session `cart_id` cookie the `/cart` body shows
an item, with a fresh jar it shows an empty-cart message. -/
def envCookieCart : RunEnv :=
  { envAllFail with
    siteCart := fun jar =>
      if jar.contains "cart_id" then some "1 item in your cart"
      else some "your bag is waiting",
    primCookies := ["cart_id"] }

/-- C7: the cart-persistence flag is 1 exactly when the body text the
*fresh, cookie-less* session reads at the root-relative `/cart` URL
contains one of the keywords item, product, quantity, subtotal
(lowercased); the fresh session always navigates to `urljoin(url, "/cart")`
and never replays the add-to-cart action (no traversal event is emitted by
it); the flag depends only on what the site serves a cookie-less session —
two environments whose cookie-less `/cart` bodies agree produce the same
flag, whatever the primary session did.  On a site whose cart state lives
only in the cookie jar of the primary session, the flag is 0 even though
the cookies of the primary session would have shown an item. -/
theorem C7_cart_persistence_isolated :
    (∀ (url : String) (env : RunEnv),
      ((get_behavioral_metrics url env).1.cart_persistence = 1 ↔
        ∃ b, env.siteCart [] = some b ∧
          (["item", "product", "quantity", "subtotal"].any
            (fun kw => strHasSub (toLowerStr b) kw)) = true) ∧
      Ev.freshCartGoto (urljoin url "/cart") ∈ (get_behavioral_metrics url env).2 ∧
      (∀ env2 : RunEnv, env2.siteCart [] = env.siteCart [] →
        (get_behavioral_metrics url env2).1.cart_persistence =
          (get_behavioral_metrics url env).1.cart_persistence)) ∧
    ((get_behavioral_metrics "http://shop.example/" envCookieCart).1.cart_persistence = 0 ∧
      envCookieCart.siteCart envCookieCart.primCookies = some "1 item in your cart" ∧
      strHasSub (toLowerStr "1 item in your cart") "item" = true) := by
  constructor
  · intro url env
    refine ⟨?_, ?_, ?_⟩
    · have hproj : (get_behavioral_metrics url env).1.cart_persistence
        = cart_step env := rfl
      rw [hproj]
      cases hs : env.siteCart [] with
      | none =>
        have h0 : cart_step env = 0 := by rw [cart_step, hs]
        rw [h0]
        simp
      | some b =>
        have hsome : cart_step env = (if (["item", "product", "quantity", "subtotal"].any
            (fun kw => strHasSub (toLowerStr b) kw)) = true then 1 else 0) := by
          rw [cart_step, hs]
        rw [hsome]
        cases hk : (["item", "product", "quantity", "subtotal"].any
            (fun kw => strHasSub (toLowerStr b) kw)) with
        | true =>
          exact iff_of_true (by decide) ⟨b, rfl, hk⟩
        | false =>
          constructor
          · intro h1
            simp at h1
          · rintro ⟨b2, hb2, hany⟩
            obtain rfl : b = b2 := Option.some_inj.mp hb2
            rw [hk] at hany
            cases hany
    · simp [get_behavioral_metrics]
    · intro env2 h2
      have hp2 : (get_behavioral_metrics url env2).1.cart_persistence
        = cart_step env2 := rfl
      have hp : (get_behavioral_metrics url env).1.cart_persistence
        = cart_step env := rfl
      rw [hp2, hp, cart_step, cart_step, h2]
  · exact ⟨by decide, by decide, by decide⟩

/-! ## C2 / C10 — helper lemmas on the event trace -/

lemma search_probe_evs (env : String → SearchProbeEnv) :
    ∀ (sels : List String) (acc : Bool) (e : Ev),
      e ∈ (search_probe env sels acc).2 → isSearchEv e = true := by
  intro sels
  induction sels with
  | nil => intro acc e he; simp [search_probe] at he
  | cons s rest ih =>
    intro acc e he
    cases hv : (env s).vis with
    | raiseOnVis =>
      simp only [search_probe, hv] at he
      exact ih acc e he
    | notVisible =>
      simp only [search_probe, hv] at he
      exact ih acc e he
    | visible =>
      cases hclick : (env s).clickOk with
      | false =>
        simp only [search_probe, hv, hclick, Bool.false_eq_true, if_false] at he
        exact ih acc e he
      | true =>
        cases htype : (env s).typeOk with
        | false =>
          simp only [search_probe, hv, hclick, htype, Bool.false_eq_true,
            if_true, if_false] at he
          exact ih acc e he
        | true =>
          cases hw : (env s).waitOk with
          | false =>
            simp only [search_probe, hv, hclick, htype, hw, Bool.false_eq_true,
              if_true, if_false, List.mem_cons] at he
            rcases he with rfl | he
            · rfl
            · exact ih acc e he
          | true =>
            cases hf : (env s).fillOk with
            | true =>
              simp only [search_probe, hv, hclick, htype, hw, hf, if_true,
                List.mem_cons, List.not_mem_nil, or_false] at he
              rcases he with rfl | rfl | rfl <;> rfl
            | false =>
              simp only [search_probe, hv, hclick, htype, hw, hf,
                Bool.false_eq_true, if_true, if_false, List.mem_cons] at he
              rcases he with rfl | rfl | he
              · rfl
              · rfl
              · exact ih _ e he

lemma search_ev_not_trans (e : Ev) (h : isSearchEv e = true) : isTransEv e = false := by
  cases e <;> simp_all [isSearchEv, isTransEv]

lemma search_no_ev (env : String → SearchProbeEnv) (sels : List String) (acc : Bool)
    (e : Ev) (hne : isSearchEv e = false) : e ∉ (search_probe env sels acc).2 := by
  intro hmem
  rw [search_probe_evs env sels acc e hmem] at hne
  cases hne

lemma filter_trans_search (env : String → SearchProbeEnv) (sels : List String)
    (acc : Bool) : ((search_probe env sels acc).2.filter isTransEv) = [] := by
  rw [List.filter_eq_nil_iff]
  intro a ha
  rw [search_ev_not_trans a (search_probe_evs env sels acc a ha)]
  simp

/-- Skipped traversal: no product URL, or the product URL equals the
landing URL, leaves the dict untouched and emits no event. -/
lemma trav_skip (env : RunEnv) (url : String) (r : Result) (pu : Option String)
    (h : pu = none ∨ pu = some url) :
    checkout_traversal env url r pu = (r, []) := by
  rcases h with rfl | rfl
  · rfl
  · simp [checkout_traversal]

/-- The quick-buy re-check leaves the depth counter field unchanged. -/
lemma quickbuy_depth (env : RunEnv) (r1 : Result) :
    (quickbuy_recheck env r1).1.click_depth_to_checkout =
      r1.click_depth_to_checkout := by
  unfold quickbuy_recheck
  split_ifs <;> rfl

lemma quickbuy_guest (env : RunEnv) (r1 : Result) :
    (quickbuy_recheck env r1).1.has_guest_checkout = r1.has_guest_checkout := by
  unfold quickbuy_recheck
  split_ifs <;> rfl

lemma quickbuy_filter_trans (env : RunEnv) (r1 : Result) :
    (quickbuy_recheck env r1).2.filter isTransEv = [] := by
  unfold quickbuy_recheck
  split_ifs <;> simp [isTransEv]

lemma cartProbe_not_mem_quickbuy (env : RunEnv) (r1 : Result) :
    Ev.cartProbe ∉ (quickbuy_recheck env r1).2 := by
  unfold quickbuy_recheck
  split_ifs <;> simp

lemma checkoutProbe_not_mem_quickbuy (env : RunEnv) (r1 : Result) :
    Ev.checkoutProbe ∉ (quickbuy_recheck env r1).2 := by
  unfold quickbuy_recheck
  split_ifs <;> simp

lemma transCheckout_not_mem_quickbuy (env : RunEnv) (r1 : Result) :
    Ev.transCheckout ∉ (quickbuy_recheck env r1).2 := by
  unfold quickbuy_recheck
  split_ifs <;> simp

lemma guest_probe_depth (env : RunEnv) (r5 : Result) :
    (guest_probe_stage env r5).click_depth_to_checkout =
      r5.click_depth_to_checkout := by
  unfold guest_probe_stage
  split_ifs <;> rfl

lemma checkout_stage_cases (env : RunEnv) (r3 : Result) (d3 : Int) :
    (checkout_stage env r3 d3 = (r3, [Ev.checkoutProbe])) ∨
    ((checkout_stage env r3 d3).2 =
        [Ev.checkoutProbe, Ev.transCheckout, Ev.guestProbe] ∧
     (checkout_stage env r3 d3).1.click_depth_to_checkout = d3 + 1) := by
  unfold checkout_stage
  split_ifs with h1 h2
  · right
    exact ⟨rfl, by simp [guest_probe_depth]⟩
  · left; rfl
  · left; rfl

lemma cart_stage_cases (env : RunEnv) (r2 : Result) (d2 : Int) :
    (cart_stage env r2 d2 = (r2, [Ev.cartProbe])) ∨
    (∃ r3 : Result,
      r3.click_depth_to_checkout = r2.click_depth_to_checkout ∧
      r3.has_guest_checkout = r2.has_guest_checkout ∧
      cart_stage env r2 d2 =
        ((checkout_stage env r3 (d2 + 1)).1,
         Ev.cartProbe :: Ev.transCart :: (checkout_stage env r3 (d2 + 1)).2)) := by
  unfold cart_stage
  split_ifs with h1 h2
  · right
    exact ⟨{ r2 with popup_count := r2.popup_count +
      (dismiss_overlays env.overlaysCart CLOSE_OVERLAY_SELECTORS : Int) },
      rfl, rfl, rfl⟩
  · left; rfl
  · left; rfl

lemma add_stage_cases (env : RunEnv) (r2 : Result) (d1 : Int) :
    (add_stage env r2 d1 = (r2, [Ev.addProbe])) ∨
    ((add_stage env r2 d1 =
        ((cart_stage env r2 (d1 + 1)).1,
         Ev.addProbe :: Ev.transAdd :: (cart_stage env r2 (d1 + 1)).2)) ∧
     safe_click env.addClick ADD_TO_CART_SELECTORS = true) := by
  unfold add_stage
  split_ifs with h1 h2
  · right; exact ⟨rfl, h1⟩
  · left; rfl
  · left; rfl

/-- Shape analysis of the whole traversal: skipped, product navigation
failed, or handed over to the add-to-cart stage with the counter at 2. -/
lemma trav_cases (env : RunEnv) (url : String) (r : Result) (pu : Option String) :
    (checkout_traversal env url r pu = (r, [])) ∨
    (∃ u, checkout_traversal env url r pu = (r, [Ev.gotoProduct u])) ∨
    (∃ u r1,
      r1.click_depth_to_checkout = r.click_depth_to_checkout ∧
      r1.has_guest_checkout = r.has_guest_checkout ∧
      checkout_traversal env url r pu =
        ((add_stage env (quickbuy_recheck env r1).1 (1 + 1)).1,
         Ev.gotoProduct u :: Ev.transProduct :: (quickbuy_recheck env r1).2
           ++ (add_stage env (quickbuy_recheck env r1).1 (1 + 1)).2)) := by
  cases pu with
  | none => exact Or.inl rfl
  | some u =>
    by_cases hu : u = url
    · exact Or.inl (by simp [checkout_traversal, hu])
    · cases hg : env.gotoProductOk with
      | true =>
        refine Or.inr (Or.inr ⟨u,
          { r with popup_count := r.popup_count +
            (dismiss_overlays env.overlaysProduct CLOSE_OVERLAY_SELECTORS : Int) },
          rfl, rfl, ?_⟩)
        simp only [checkout_traversal]
        rw [if_neg hu, if_pos hg]
      | false =>
        refine Or.inr (Or.inl ⟨u, ?_⟩)
        simp only [checkout_traversal]
        rw [if_neg hu, if_neg (by simp [hg])]

lemma trav_order (env : RunEnv) (url : String) (r : Result) (pu : Option String) :
    ((checkout_traversal env url r pu).2.filter isTransEv).isPrefixOf
      [Ev.transProduct, Ev.transAdd, Ev.transCart, Ev.transCheckout] = true := by
  rcases trav_cases env url r pu with heq | ⟨u, heq⟩ | ⟨u, r1, _, _, heq⟩
  · rw [heq]; rfl
  · rw [heq]; rfl
  · rw [heq]
    rcases add_stage_cases env (quickbuy_recheck env r1).1 (1 + 1) with ha | ⟨ha, _⟩
    · rw [ha]
      simp [List.filter_append, quickbuy_filter_trans, isTransEv, List.isPrefixOf]
    · rw [ha]
      rcases cart_stage_cases env (quickbuy_recheck env r1).1 (1 + 1 + 1) with
        hc | ⟨r3, _, _, hc⟩
      · rw [hc]
        simp [List.filter_append, quickbuy_filter_trans, isTransEv, List.isPrefixOf]
      · rw [hc]
        rcases checkout_stage_cases env r3 (1 + 1 + 1 + 1) with hk | ⟨hk2, _⟩
        · rw [hk]
          simp [List.filter_append, quickbuy_filter_trans, isTransEv, List.isPrefixOf]
        · rw [hk2]
          simp [List.filter_append, quickbuy_filter_trans, isTransEv, List.isPrefixOf]

lemma trav_checkout (env : RunEnv) (url : String) (r : Result) (pu : Option String) :
    Ev.transCheckout ∈ (checkout_traversal env url r pu).2 →
      ((checkout_traversal env url r pu).1.click_depth_to_checkout = 5 ∧
       ((checkout_traversal env url r pu).2.filter isTransEv).length = 4) := by
  intro hmem
  rcases trav_cases env url r pu with heq | ⟨u, heq⟩ | ⟨u, r1, _, _, heq⟩
  · rw [heq] at hmem; simp at hmem
  · rw [heq] at hmem; simp at hmem
  · rw [heq] at hmem ⊢
    rcases add_stage_cases env (quickbuy_recheck env r1).1 (1 + 1) with ha | ⟨ha, _⟩
    · rw [ha] at hmem
      simp [transCheckout_not_mem_quickbuy] at hmem
    · rw [ha] at hmem ⊢
      rcases cart_stage_cases env (quickbuy_recheck env r1).1 (1 + 1 + 1) with
        hc | ⟨r3, _, _, hc⟩
      · rw [hc] at hmem
        simp [transCheckout_not_mem_quickbuy] at hmem
      · rw [hc] at hmem ⊢
        rcases checkout_stage_cases env r3 (1 + 1 + 1 + 1) with hk | ⟨hk2, hkd⟩
        · rw [hk] at hmem
          simp [transCheckout_not_mem_quickbuy] at hmem
        · constructor
          · show (checkout_stage env r3 (1 + 1 + 1 + 1)).1.click_depth_to_checkout = 5
            rw [hkd]; norm_num
          · rw [hk2]
            simp [List.filter_append, quickbuy_filter_trans, isTransEv]

lemma trav_halt (env : RunEnv) (url : String) (r : Result) (pu : Option String) :
    Ev.transCheckout ∉ (checkout_traversal env url r pu).2 →
      ((checkout_traversal env url r pu).1.click_depth_to_checkout =
        r.click_depth_to_checkout ∧
       (checkout_traversal env url r pu).1.has_guest_checkout =
        r.has_guest_checkout) := by
  intro hmem
  rcases trav_cases env url r pu with heq | ⟨u, heq⟩ | ⟨u, r1, hd1, hg1, heq⟩
  · rw [heq]; exact ⟨rfl, rfl⟩
  · rw [heq]; exact ⟨rfl, rfl⟩
  · rw [heq] at hmem ⊢
    rcases add_stage_cases env (quickbuy_recheck env r1).1 (1 + 1) with ha | ⟨ha, _⟩
    · rw [ha]
      simp [quickbuy_depth, quickbuy_guest, hd1, hg1]
    · rw [ha] at hmem ⊢
      rcases cart_stage_cases env (quickbuy_recheck env r1).1 (1 + 1 + 1) with
        hc | ⟨r3, hd3, hg3, hc⟩
      · rw [hc]
        simp [quickbuy_depth, quickbuy_guest, hd1, hg1]
      · rw [hc] at hmem ⊢
        rcases checkout_stage_cases env r3 (1 + 1 + 1 + 1) with hk | ⟨hk2, hkd⟩
        · rw [hk]
          refine ⟨?_, ?_⟩
          · show r3.click_depth_to_checkout = r.click_depth_to_checkout
            rw [hd3, quickbuy_depth, hd1]
          · show r3.has_guest_checkout = r.has_guest_checkout
            rw [hg3, quickbuy_guest, hg1]
        · exfalso
          apply hmem
          rw [hk2]
          simp

lemma trav_no_add (env : RunEnv) (url : String) (r : Result) (pu : Option String)
    (hno : ∀ s ∈ ADD_TO_CART_SELECTORS, env.addClick s ≠ ClickOutcome.clicked) :
    Ev.cartProbe ∉ (checkout_traversal env url r pu).2 ∧
    Ev.checkoutProbe ∉ (checkout_traversal env url r pu).2 ∧
    Ev.transCheckout ∉ (checkout_traversal env url r pu).2 := by
  have hfalse := safe_click_false_of_none env.addClick ADD_TO_CART_SELECTORS hno
  rcases trav_cases env url r pu with heq | ⟨u, heq⟩ | ⟨u, r1, _, _, heq⟩
  · rw [heq]; simp
  · rw [heq]; simp
  · rw [heq]
    have haf1 : add_stage env (quickbuy_recheck env r1).1 (1 + 1) =
        ((quickbuy_recheck env r1).1, [Ev.addProbe]) := by
      unfold add_stage
      rw [hfalse]
      simp
    rw [haf1]
    simp [cartProbe_not_mem_quickbuy, checkoutProbe_not_mem_quickbuy,
      transCheckout_not_mem_quickbuy]

lemma ite_result_depth (b : Bool) (x y : Result)
    (h : x.click_depth_to_checkout = y.click_depth_to_checkout) :
    (if b then x else y).click_depth_to_checkout = y.click_depth_to_checkout := by
  cases b <;> simp [h]

lemma ite_result_guest (b : Bool) (x y : Result)
    (h : x.has_guest_checkout = y.has_guest_checkout) :
    (if b then x else y).has_guest_checkout = y.has_guest_checkout := by
  cases b <;> simp [h]

lemma primary_spec (env : RunEnv) (url : String) :
    (((primary_phase env url).2.filter isTransEv).isPrefixOf
      [Ev.transProduct, Ev.transAdd, Ev.transCart, Ev.transCheckout] = true) ∧
    (Ev.transCheckout ∈ (primary_phase env url).2 →
      ((primary_phase env url).1.click_depth_to_checkout = 5 ∧
       ((primary_phase env url).2.filter isTransEv).length = 4)) ∧
    (Ev.transCheckout ∉ (primary_phase env url).2 →
      ((primary_phase env url).1.click_depth_to_checkout = -1 ∧
       (primary_phase env url).1.has_guest_checkout = 0)) ∧
    ((∀ s ∈ ADD_TO_CART_SELECTORS, env.addClick s ≠ ClickOutcome.clicked) →
      (Ev.cartProbe ∉ (primary_phase env url).2 ∧
       Ev.checkoutProbe ∉ (primary_phase env url).2 ∧
       Ev.transCheckout ∉ (primary_phase env url).2)) ∧
    (∀ anchors, env.anchorsMain = some anchors →
      (find_product_url anchors env.grid url = none ∨
        find_product_url anchors env.grid url = some url) →
      ((∀ v, Ev.gotoProduct v ∉ (primary_phase env url).2) ∧
       Ev.addProbe ∉ (primary_phase env url).2 ∧
       Ev.quickBuyRecheck ∉ (primary_phase env url).2 ∧
       (primary_phase env url).1.click_depth_to_checkout = -1)) := by
  cases hgh : env.gotoHome with
  | false =>
    unfold primary_phase
    rw [if_neg (by simp [hgh])]
    refine ⟨rfl, ?_, ?_, ?_, ?_⟩
    · intro hmem; simp at hmem
    · intro _; exact ⟨rfl, rfl⟩
    · intro _; exact ⟨by simp, by simp, by simp⟩
    · intro anchors ha hfind
      exact ⟨fun v => by simp, by simp, by simp, rfl⟩
  | true =>
    unfold primary_phase
    rw [if_pos hgh]
    cases hpc : env.pageContent with
    | none =>
      simp only [hpc]
      refine ⟨rfl, ?_, ?_, ?_, ?_⟩
      · intro hmem; simp at hmem
      · intro _; exact ⟨rfl, rfl⟩
      · intro _; exact ⟨by simp, by simp, by simp⟩
      · intro anchors ha hfind
        exact ⟨fun v => by simp, by simp, by simp, rfl⟩
    | some html =>
      simp only [hpc]
      cases hA : env.anchorsMain with
      | none =>
        simp only [hA]
        refine ⟨?_, ?_, ?_, ?_, ?_⟩
        · rw [filter_trans_search]; rfl
        · intro hmem
          exact absurd hmem (search_no_ev _ _ _ _ rfl)
        · intro _
          constructor
          · rw [ite_result_depth] <;> rfl
          · rw [ite_result_guest] <;> rfl
        · intro _
          exact ⟨search_no_ev _ _ _ _ rfl, search_no_ev _ _ _ _ rfl,
            search_no_ev _ _ _ _ rfl⟩
        · intro anchors ha _
          simp at ha
      | some anchors0 =>
        simp only [hA]
        refine ⟨?_, ?_, ?_, ?_, ?_⟩
        · rw [List.filter_append, filter_trans_search]
          simp only [List.nil_append]
          exact trav_order env url _ _
        · intro hmem
          rcases List.mem_append.mp hmem with h | h
          · exact absurd h (search_no_ev _ _ _ _ rfl)
          · have h2 := trav_checkout env url _ _ h
            refine ⟨h2.1, ?_⟩
            rw [List.filter_append, filter_trans_search]
            simpa using h2.2
        · intro hnot
          have hnot2 : Ev.transCheckout ∉
              (checkout_traversal env url _ (find_product_url anchors0 env.grid url)).2 :=
            fun h => hnot (List.mem_append.mpr (Or.inr h))
          have h3 := trav_halt env url _ _ hnot2
          refine ⟨?_, ?_⟩
          · rw [h3.1, ite_result_depth] <;> rfl
          · rw [h3.2, ite_result_guest] <;> rfl
        · intro hno
          refine ⟨?_, ?_, ?_⟩
          · intro hmem
            rcases List.mem_append.mp hmem with h | h
            · exact absurd h (search_no_ev _ _ _ _ rfl)
            · exact absurd h (trav_no_add env url _ _ hno).1
          · intro hmem
            rcases List.mem_append.mp hmem with h | h
            · exact absurd h (search_no_ev _ _ _ _ rfl)
            · exact absurd h (trav_no_add env url _ _ hno).2.1
          · intro hmem
            rcases List.mem_append.mp hmem with h | h
            · exact absurd h (search_no_ev _ _ _ _ rfl)
            · exact absurd h (trav_no_add env url _ _ hno).2.2
        · intro anchors ha hfind
          obtain rfl : anchors0 = anchors := by
            injection ha
          rw [trav_skip env url _ _ hfind]
          refine ⟨?_, ?_, ?_, ?_⟩
          · intro v hmem
            rcases List.mem_append.mp hmem with h | h
            · exact absurd h (search_no_ev _ _ _ _ rfl)
            · simp at h
          · intro hmem
            rcases List.mem_append.mp hmem with h | h
            · exact absurd h (search_no_ev _ _ _ _ rfl)
            · simp at h
          · intro hmem
            rcases List.mem_append.mp hmem with h | h
            · exact absurd h (search_no_ev _ _ _ _ rfl)
            · simp at h
          · rw [ite_result_depth] <;> rfl

/-- C2: `click_depth_to_checkout` is committed only when the terminal
checkout state is reached: the resulting depth is either the default -1 or
`1 + (number of successful transitions)` with the checkout transition
among them (each transition incrementing the counter, which started at 1
on the landing page, by exactly 1 — so the committed value is 5); when
checkout is reached the value is 5; when the depth stays -1 the
guest-checkout flag stays 0; the transition events always form a prefix
of product → add-to-cart → cart → checkout (monotone, +1 each); and when
the add-to-cart cascade finds no candidate, the cart and checkout locator
cascades are never invoked, the depth stays -1 and the guest flag stays
0. -/
theorem C2_click_depth_commit :
    ∀ (url : String) (env : RunEnv),
      ((get_behavioral_metrics url env).1.click_depth_to_checkout = -1 ∨
        ((get_behavioral_metrics url env).1.click_depth_to_checkout =
          1 + (((get_behavioral_metrics url env).2.filter isTransEv).length : Int) ∧
         Ev.transCheckout ∈ (get_behavioral_metrics url env).2)) ∧
      (Ev.transCheckout ∈ (get_behavioral_metrics url env).2 →
        (get_behavioral_metrics url env).1.click_depth_to_checkout = 5) ∧
      ((get_behavioral_metrics url env).1.click_depth_to_checkout = -1 →
        (get_behavioral_metrics url env).1.has_guest_checkout = 0) ∧
      (((get_behavioral_metrics url env).2.filter isTransEv).isPrefixOf
        [Ev.transProduct, Ev.transAdd, Ev.transCart, Ev.transCheckout] = true) ∧
      ((∀ s ∈ ADD_TO_CART_SELECTORS, env.addClick s ≠ ClickOutcome.clicked) →
        (Ev.cartProbe ∉ (get_behavioral_metrics url env).2 ∧
         Ev.checkoutProbe ∉ (get_behavioral_metrics url env).2 ∧
         (get_behavioral_metrics url env).1.click_depth_to_checkout = -1 ∧
         (get_behavioral_metrics url env).1.has_guest_checkout = 0)) := by
  intro url env
  obtain ⟨P1, P2, P3, P4, _⟩ := primary_spec env url
  have hd : (get_behavioral_metrics url env).1.click_depth_to_checkout
      = (primary_phase env url).1.click_depth_to_checkout := rfl
  have hg : (get_behavioral_metrics url env).1.has_guest_checkout
      = (primary_phase env url).1.has_guest_checkout := rfl
  have hev : (get_behavioral_metrics url env).2
      = (primary_phase env url).2 ++ [Ev.freshCartGoto (urljoin url "/cart")] := rfl
  have hmemiff : Ev.transCheckout ∈ (get_behavioral_metrics url env).2 ↔
      Ev.transCheckout ∈ (primary_phase env url).2 := by
    rw [hev]; simp
  have hfil : (get_behavioral_metrics url env).2.filter isTransEv
      = (primary_phase env url).2.filter isTransEv := by
    rw [hev, List.filter_append]
    simp [isTransEv]
  refine ⟨?_, ?_, ?_, ?_, ?_⟩
  · by_cases hm : Ev.transCheckout ∈ (primary_phase env url).2
    · right
      obtain ⟨h5, h4len⟩ := P2 hm
      refine ⟨?_, hmemiff.mpr hm⟩
      rw [hd, h5, hfil, h4len]
      norm_num
    · left
      rw [hd, (P3 hm).1]
  · intro hm
    rw [hd, (P2 (hmemiff.mp hm)).1]
  · intro hdep
    by_cases hm : Ev.transCheckout ∈ (primary_phase env url).2
    · exfalso
      rw [hd, (P2 hm).1] at hdep
      exact absurd hdep (by norm_num)
    · rw [hg, (P3 hm).2]
  · rw [hfil]; exact P1
  · intro hno
    obtain ⟨h1, h2, h3⟩ := P4 hno
    refine ⟨?_, ?_, ?_, ?_⟩
    · rw [hev]
      intro hmem
      rcases List.mem_append.mp hmem with h | h
      · exact absurd h h1
      · simp at h
    · rw [hev]
      intro hmem
      rcases List.mem_append.mp hmem with h | h
      · exact absurd h h2
      · simp at h
    · rw [hd, (P3 h3).1]
    · rw [hg, (P3 h3).2]

/-- C10: when product discovery yields no URL, or a URL equal to the
landing page itself, the entire checkout traversal is skipped: no
navigation to a product page is attempted, the add-to-cart cascade and
the quick-buy re-check are never invoked, and `click_depth_to_checkout`
stays -1. -/
theorem C10_skip_traversal_on_no_product :
    ∀ (url : String) (env : RunEnv) (anchors : List (Option String)),
      env.anchorsMain = some anchors →
      (find_product_url anchors env.grid url = none ∨
        find_product_url anchors env.grid url = some url) →
      ((∀ v, Ev.gotoProduct v ∉ (get_behavioral_metrics url env).2) ∧
       Ev.addProbe ∉ (get_behavioral_metrics url env).2 ∧
       Ev.quickBuyRecheck ∉ (get_behavioral_metrics url env).2 ∧
       (get_behavioral_metrics url env).1.click_depth_to_checkout = -1) := by
  intro url env anchors ha hfind
  obtain ⟨_, _, _, _, P5⟩ := primary_spec env url
  obtain ⟨h1, h2, h3, h4⟩ := P5 anchors ha hfind
  have hev : (get_behavioral_metrics url env).2
      = (primary_phase env url).2 ++ [Ev.freshCartGoto (urljoin url "/cart")] := rfl
  have hd : (get_behavioral_metrics url env).1.click_depth_to_checkout
      = (primary_phase env url).1.click_depth_to_checkout := rfl
  refine ⟨?_, ?_, ?_, ?_⟩
  · intro v
    rw [hev]
    intro hmem
    rcases List.mem_append.mp hmem with h | h
    · exact absurd h (h1 v)
    · simp at h
  · rw [hev]
    intro hmem
    rcases List.mem_append.mp hmem with h | h
    · exact absurd h h2
    · simp at h
  · rw [hev]
    intro hmem
    rcases List.mem_append.mp hmem with h | h
    · exact absurd h h3
    · simp at h
  · rw [hd, h4]

/-- A run whose homepage loads with no anchors at all: product discovery
returns none. -/
def envC10 : RunEnv :=
  { envAllFail with
    gotoHome := true, pageContent := some "", anchorsMain := some [] }

/-- C10 witness: on the anchor-less fixture the add-to-cart cascade and
quick-buy re-check are never invoked and the depth stays -1. -/
theorem C10_skip_traversal_witness :
    Ev.addProbe ∉ (get_behavioral_metrics "https://example.com" envC10).2 ∧
    Ev.quickBuyRecheck ∉ (get_behavioral_metrics "https://example.com" envC10).2 ∧
    (get_behavioral_metrics "https://example.com" envC10).1.click_depth_to_checkout
      = -1 := by
  have h := C10_skip_traversal_on_no_product "https://example.com" envC10 [] rfl
    (Or.inl rfl)
  exact ⟨h.2.1, h.2.2.1, h.2.2.2⟩
